import Mathlib

/-!
Verification development for the BYOK gijiroku (meeting-minutes) app.

The frontend TypeScript sources are shallowly embedded as Lean definitions:
pure functions become Lean functions, network / LLM calls become explicit
outcome parameters (the settled value of the awaited promise), JavaScript
`number` time stamps become `ℚ`, JavaScript objects become structures whose
fields may be `Option` where the runtime object can lack the field, and a
promise that can reject is modelled as `Except String α` (`.error` = rejection).
Fields holding freshly generated `uuidv4()` identifiers are omitted from the
embedded records: they are nondeterministic and no verified property mentions
them.
-/

namespace Gijiroku

/-! ## Data model (`src/types`, re-exported in the repository README) -/

/-- A speaker of the final transcript (`Speaker` in `src/types`). -/
structure Speaker where
  id : String
  name : String
  color : String
deriving DecidableEq, Repr

/-- A transcript segment (`TranscriptSegment` in `src/types`); the `id : string`
uuid field is omitted (fresh `uuidv4()`), and `confidence` is `Option` because
the object built in `RecordingPanel.tsx` (backend path) omits it. -/
structure TranscriptSegment where
  speakerId : String
  text : String
  startTime : ℚ
  endTime : ℚ
  confidence : Option ℚ
deriving DecidableEq, Repr

/-- A transcript object as it exists at runtime (`Transcript` in `src/types`).
`rawText` is declared `string` in the TypeScript interface but is modelled as
`Option String` because the object assigned in `RecordingPanel.tsx` lines
252-255 is built without it. -/
structure TranscriptObj where
  speakers : List Speaker
  segments : List TranscriptSegment
  rawText : Option String
deriving DecidableEq, Repr

/-- The fixed speaker colour palette (`SPEAKER_COLORS` in `src/lib/constants.ts`). -/
def SPEAKER_COLORS : List String :=
  ["#8B5CF6", "#3B82F6", "#10B981", "#F59E0B", "#EF4444", "#EC4899", "#06B6D4", "#84CC16"]

/-- JavaScript `a || b` on an optionally-present string: `undefined` and the
empty string are falsy, every other string is truthy. -/
def jsOr (a : Option String) (b : String) : String :=
  match a with
  | some s => if s = "" then b else s
  | none => b

/-! ## `performSpeakerDiarization` (`src/lib/ai-service.ts` lines 181-252) -/

/-- One entry of the parsed LLM diarization JSON's `speakers` array.
`estimatedName` is `Option` since the JSON field may be absent. -/
structure ParsedDiarSpeaker where
  id : String
  estimatedName : Option String
deriving DecidableEq, Repr

/-- One entry of the parsed LLM diarization JSON's `segments` array. -/
structure ParsedDiarSegment where
  speakerId : String
  text : String
  startTime : ℚ
  endTime : ℚ
deriving DecidableEq, Repr

/-- The successfully parsed LLM diarization output. -/
structure ParsedDiarization where
  speakers : List ParsedDiarSpeaker
  segments : List ParsedDiarSegment
deriving DecidableEq, Repr

/-- The `segments` argument of `performSpeakerDiarization`
(`{start: number; end: number; text: string}`); `stop` stands for the source
field `end`, which is a Lean keyword. -/
structure SegIn where
  start : ℚ
  stop : ℚ
  text : String
deriving DecidableEq, Repr

/-- Embedding of `performSpeakerDiarization` (`src/lib/ai-service.ts:181-252`).
The whole `try` prefix — the awaited `processWithLLM` call, `JSON.parse` and the
field accesses on the parsed value — is abstracted into the single parameter
`llmOutcome : Option ParsedDiarization`; `none` means any of them threw, which
lands in the `catch` branch.  The returned `Except` is the promise's settled
state: the function's body never rejects (the `catch` swallows every error), so
every branch produces `.ok`. -/
def performSpeakerDiarization (transcriptText : String) (segments : List SegIn)
    (llmOutcome : Option ParsedDiarization) : Except String TranscriptObj :=
  match llmOutcome with
  | some parsed =>
      Except.ok
        { speakers := parsed.speakers.enum.map (fun p =>
            { id := p.2.id
              name := jsOr p.2.estimatedName ("話者" ++ toString (p.1 + 1))
              color := SPEAKER_COLORS.getD (p.1 % SPEAKER_COLORS.length) "" })
          segments := parsed.segments.map (fun seg =>
            { speakerId := seg.speakerId
              text := seg.text
              startTime := seg.startTime
              endTime := seg.endTime
              confidence := some (85/100) })
          rawText := some transcriptText }
  | none =>
      Except.ok
        { speakers := [{ id := "speaker_1", name := "話者1", color := SPEAKER_COLORS.getD 0 "" }]
          segments :=
            if segments.length > 0 then
              segments.map (fun seg =>
                { speakerId := "speaker_1"
                  text := seg.text
                  startTime := seg.start
                  endTime := seg.stop
                  confidence := some (9/10) })
            else
              [{ speakerId := "speaker_1", text := transcriptText, startTime := 0, endTime := 0,
                 confidence := some (9/10) }]
          rawText := some transcriptText }

/-! ## `generateMeetingSummary` (`src/lib/ai-service.ts` lines 255-301) -/

/-- One entry of the parsed LLM summary JSON's `actionItems` array. -/
structure ParsedActionItem where
  description : String
  assignee : Option String
deriving DecidableEq, Repr

/-- The successfully parsed LLM summary output; every field may be absent. -/
structure ParsedSummary where
  title : Option String
  summary : Option String
  keyPoints : Option (List String)
  actionItems : Option (List ParsedActionItem)
  decisions : Option (List String)
deriving DecidableEq, Repr

/-- An action item as produced by `generateMeetingSummary` (`ActionItem` in
`src/types` minus the fresh uuid `id`). -/
structure ActionItemOut where
  description : String
  assignee : Option String
  completed : Bool
deriving DecidableEq, Repr

/-- The `Partial<MeetingMinutes>` slice returned by `generateMeetingSummary`. -/
structure SummaryOut where
  title : String
  summary : String
  keyPoints : List String
  actionItems : List ActionItemOut
  decisions : List String
deriving DecidableEq, Repr

/-- The transcript formatting at the top of `generateMeetingSummary`
(`src/lib/ai-service.ts:262-267`): each segment becomes
`[speakerName]: text`, joined by newlines; an unknown speaker prints `不明`. -/
def formatTranscript (t : TranscriptObj) : String :=
  String.intercalate "\n" (t.segments.map (fun seg =>
    "[" ++ jsOr ((t.speakers.find? (fun s => s.id = seg.speakerId)).map (fun s => s.name)) "不明"
        ++ "]: " ++ seg.text))

/-- Embedding of `generateMeetingSummary` (`src/lib/ai-service.ts:255-301`).
`llmOutcome = none` means the awaited LLM call or the `JSON.parse` of its
output threw, landing in the `catch` branch.  The `catch` branch evaluates
`transcript.rawText.slice(0, 300)`: if the runtime object lacks `rawText`
(`none`), that expression itself throws a `TypeError`, which escapes the
function and rejects the promise — modelled as `.error`. -/
def generateMeetingSummary (transcript : TranscriptObj)
    (llmOutcome : Option ParsedSummary) : Except String SummaryOut :=
  match llmOutcome with
  | some parsed =>
      Except.ok
        { title := jsOr parsed.title "会議議事録"
          summary := jsOr parsed.summary ""
          keyPoints := parsed.keyPoints.getD []
          actionItems := (parsed.actionItems.getD []).map (fun item =>
            { description := item.description, assignee := item.assignee, completed := false })
          decisions := parsed.decisions.getD [] }
  | none =>
      match transcript.rawText with
      | some raw =>
          Except.ok
            { title := "会議議事録"
              summary := raw.take 300 ++ "..."
              keyPoints := []
              actionItems := []
              decisions := [] }
      | none =>
          Except.error "TypeError: Cannot read properties of undefined (reading 'slice')"

/-! ## The backend-path transcript construction (`src/components/RecordingPanel.tsx` 236-255) -/

/-- A speaker record of the backend `ProcessingResult` (`src/lib/backend-api.ts`). -/
structure BSpeaker where
  id : String
  name : String
  color : String
deriving DecidableEq, Repr

/-- A segment record of the backend `ProcessingResult`; `stop` stands for the
source field `end`. -/
structure BSegment where
  start : ℚ
  stop : ℚ
  text : String
  speaker_id : String
deriving DecidableEq, Repr

/-- The backend pipeline's `ProcessingResult` (`src/lib/backend-api.ts`). -/
structure BProcessingResult where
  text : String
  segments : List BSegment
  speakers : List BSpeaker
  language : String
deriving DecidableEq, Repr

/-- The `Transcript` object built from a backend `ProcessingResult` in
`RecordingPanel.tsx` lines 236-255: speakers and segments are converted
field-by-field; neither `rawText` nor the segments' `confidence` is set, so the
runtime object lacks them. -/
def backendPathTranscript (r : BProcessingResult) : TranscriptObj :=
  { speakers := r.speakers.map (fun s => { id := s.id, name := s.name, color := s.color })
    segments := r.segments.map (fun seg =>
      { speakerId := seg.speaker_id
        text := seg.text
        startTime := seg.start
        endTime := seg.stop
        confidence := none })
    rawText := none }

/-! ## The 'both' recording mode mix (`src/hooks/useAudioRecorder.ts` lines 189-207) -/

/-- A Web Audio `GainNode` as configured in `startRecording`: it multiplies
every sample of its input by `gainValue`. -/
structure GainNode where
  gainValue : ℚ
deriving DecidableEq, Repr

/-- `systemGain` (`useAudioRecorder.ts:197-199`): `systemGain.gain.value = 1.0`. -/
def systemGain : GainNode := { gainValue := 1 }

/-- `micGain` (`useAudioRecorder.ts:198-200`): `micGain.gain.value = 0.8`. -/
def micGain : GainNode := { gainValue := 8/10 }

/-- A `GainNode` scales each sample of its input by its gain value. -/
def applyGain (g : GainNode) (sample : ℚ) : ℚ := g.gainValue * sample

/-- One output sample of the `MediaStreamAudioDestinationNode` in the 'both'
recording mode (`useAudioRecorder.ts:189-207`): the destination sums its two
connected inputs, `systemSource → systemGain → destination` and
`micSource → micGain → destination`. -/
def destinationSample (sysSample micSample : ℚ) : ℚ :=
  applyGain systemGain sysSample + applyGain micGain micSample

/-- The mix the spec's words describe, for comparison: each source summed with
per-source unity gain. -/
def destinationSampleUnitySpec (sysSample micSample : ℚ) : ℚ :=
  sysSample + micSample

/-! ## The zustand store (`src/store/useStore.ts`) -/

/-- `LocalLLMSettings` (`src/types`). -/
structure LocalLLMSettings where
  ollamaUrl : String
  ollamaModel : String
  koboldcppUrl : String
deriving DecidableEq, Repr

/-- `BackendSettings` (`src/types`). -/
structure BackendSettings where
  enabled : Bool
  url : String
  whisperModel : String
  useLocalDiarization : Bool
  hfToken : Option String
deriving DecidableEq, Repr

/-- `APIKeySettings` (`src/types`): one optional key per provider. -/
structure APIKeySettings where
  openai : Option String
  gemini : Option String
  anthropic : Option String
  ollama : Option String
  koboldcpp : Option String
deriving DecidableEq, Repr

/-- `AppSettings` (`src/types`). -/
structure AppSettings where
  apiKeys : APIKeySettings
  selectedProvider : String
  selectedModel : String
  localLLM : LocalLLMSettings
  backend : BackendSettings
  language : String
  autoSave : Bool
  speakerDiarization : Bool
  theme : String
deriving DecidableEq, Repr

/-- `RecordingState` (`src/types`). -/
structure RecordingState where
  isRecording : Bool
  isPaused : Bool
  duration : Nat
  source : String
  audioLevel : ℚ
deriving DecidableEq, Repr

/-- `MeetingMinutes` (`src/types`); `Date` values are modelled as epoch
milliseconds (`Nat`). -/
structure MeetingMinutes where
  id : String
  title : String
  date : Nat
  duration : Nat
  participants : List Speaker
  transcript : TranscriptObj
  summary : String
  keyPoints : List String
  actionItems : List ActionItemOut
  decisions : List String
  audioId : Option String
  createdAt : Nat
  updatedAt : Nat
deriving DecidableEq, Repr

/-- The zustand store state (`AppState` slice held by `useStore`). -/
structure StoreState where
  settings : AppSettings
  recording : RecordingState
  minutes : List MeetingMinutes
  currentMinutes : Option MeetingMinutes
  activeTab : String
  isProcessing : Bool
deriving DecidableEq, Repr

/-- Embedding of the `deleteMinutes` action (`src/store/useStore.ts:63-67`):
zustand's `set` merges the returned partial state, so only `minutes` and
`currentMinutes` change.  `state.currentMinutes?.id === id` is false when
`currentMinutes` is `null`. -/
def deleteMinutes (id : String) (s : StoreState) : StoreState :=
  { s with
    minutes := s.minutes.filter (fun m => m.id ≠ id)
    currentMinutes :=
      if s.currentMinutes.map MeetingMinutes.id = some id then none else s.currentMinutes }

/-! ## `stopRecording` and `cleanup` (`src/hooks/useAudioRecorder.ts`) -/

/-- The `MediaRecorder.state` values. -/
inductive MRState where
  | inactive
  | recording
  | paused
deriving DecidableEq, Repr

/-- The `AudioContext.state` values. -/
inductive ACState where
  | running
  | suspended
  | closed
deriving DecidableEq, Repr

/-- The mutable refs and React state of `useAudioRecorder` that `stopRecording`
and `cleanup` touch.  Resource refs are `Option` (`null` = `none`); a recorded
chunk is a byte list. -/
structure RecorderState where
  mediaRecorder : Option MRState
  chunks : List (List Nat)
  stream : Option Nat
  audioContext : Option ACState
  animationFrame : Option Nat
  timer : Option Nat
  isRecording : Bool
  isPaused : Bool
  audioBlob : Option (List Nat)
deriving DecidableEq, Repr

/-- Embedding of `cleanup` (`useAudioRecorder.ts:95-112`): cancels the
animation frame and timer, stops all stream tracks and clears the stream ref,
and closes the audio context — but the context ref is nulled only inside the
`state !== 'closed'` guard, so an already-closed context stays referenced. -/
def cleanup (s : RecorderState) : RecorderState :=
  { s with
    animationFrame := none
    timer := none
    stream := none
    audioContext :=
      match s.audioContext with
      | some st => if st ≠ ACState.closed then none else some st
      | none => none }

/-- Embedding of `stopRecording` (`useAudioRecorder.ts:293-313`).  The returned
pair is the state after the executor (and, in the active case, the `onstop`
callback) has run, together with the promise's fulfillment value
(`Blob | null`).  The executor only ever calls `resolve` — there is no code
path that rejects or leaves the promise pending: when the recorder is absent or
already `inactive` it resolves `null` synchronously, otherwise `onstop`
resolves with the assembled blob. -/
def stopRecording (s : RecorderState) : RecorderState × Option (List Nat) :=
  match s.mediaRecorder with
  | some st =>
      if st ≠ MRState.inactive then
        let blob := s.chunks.flatten
        (cleanup { s with
            mediaRecorder := some MRState.inactive
            audioBlob := some blob
            isRecording := false
            isPaused := false },
         some blob)
      else
        (cleanup { s with isRecording := false, isPaused := false }, none)
  | none => (cleanup { s with isRecording := false, isPaused := false }, none)

/-! ## Backend task polling (`src/lib/backend-api.ts`) -/

/-- The `status` values of a backend `ProcessingStatus`
(`'processing' | 'completed' | 'error'`). -/
inductive TaskStatusKind where
  | processing
  | completed
  | error
deriving DecidableEq, Repr

/-- The backend's `ProcessingStatus` payload (`src/lib/backend-api.ts`). -/
structure ProcessingStatus where
  status : TaskStatusKind
  progress : ℚ
  message : String
  result : Option BProcessingResult
deriving DecidableEq, Repr

/-- One iteration of the `poll` closure inside `waitForProcessing`
(`backend-api.ts:520-538`) applied to a successfully fetched status:
`some (.ok r)` = the promise resolves with `r`, `some (.error m)` = it rejects
with message `m`, `none` = another poll is scheduled via `setTimeout`.  The
source checks `status === 'completed' && status.result` first (a `completed`
status without an attached result falls through to the re-poll branch), then
`status === 'error'`. -/
def pollStep (st : ProcessingStatus) : Option (Except String BProcessingResult) :=
  match st.status, st.result with
  | TaskStatusKind.completed, some r => some (Except.ok r)
  | TaskStatusKind.error, _ => some (Except.error st.message)
  | _, _ => none

/-- Embedding of `waitForProcessing` (`backend-api.ts:514-542`) run against a
given sequence of successfully polled statuses: the settled outcome is the
first terminal poll result, `none` if every polled status schedules another
poll (the promise is still pending after the sequence). -/
def waitForProcessing : List ProcessingStatus → Option (Except String BProcessingResult)
  | [] => none
  | st :: rest =>
      match pollStep st with
      | some out => some out
      | none => waitForProcessing rest

/-- The outcome of one `fetch` of the task-status endpoint as `getProcessingStatus`
sees it: a response that is `ok` with a parsed `ProcessingStatus` body, or a
non-`ok` response whose parsed error body optionally carries a `detail` field. -/
inductive HttpStatusResponse where
  | success (body : ProcessingStatus)
  | failure (detail : Option String)
deriving DecidableEq, Repr

/-- Embedding of `getProcessingStatus` (`backend-api.ts:500-509`): a non-`ok`
response throws `new Error(error.detail || '状態の取得に失敗しました')`
(rejecting the promise), an `ok` response resolves with the parsed body. -/
def getProcessingStatus : HttpStatusResponse → Except String ProcessingStatus
  | HttpStatusResponse.success body => Except.ok body
  | HttpStatusResponse.failure detail => Except.error (jsOr detail "状態の取得に失敗しました")

/-- Modelled from the spec: the backend `TaskRegistry`'s status endpoint (the
Python FastAPI server behind `GET /api/process/{taskId}` is not part of the
frontend sources).  Per the spec, "`get` on an unknown id returns a 'not found'
signal, never a default/empty task": a registered task id answers `ok` with the
task's status, an unknown id answers a non-`ok` response whose error `detail`
says the task was not found. -/
def backendProcessStatus (registry : List (String × ProcessingStatus))
    (taskId : String) : HttpStatusResponse :=
  match registry.lookup taskId with
  | some st => HttpStatusResponse.success st
  | none => HttpStatusResponse.failure (some "Task not found")

/-! ## The pipeline merge stage (backend, modelled from the spec) -/

/-- Modelled from the spec: a diarization speaker time range (the Python
backend that implements the merge stage is not part of the frontend sources).
`stop` stands for the range's `end`. -/
structure DiarRange where
  start : ℚ
  stop : ℚ
  speaker : String
deriving DecidableEq, Repr

/-- Temporal overlap length of the closed intervals `[aStart, aStop]` and
`[bStart, bStop]` (zero when they are disjoint). -/
def overlapLen (aStart aStop bStart bStop : ℚ) : ℚ :=
  max 0 (min aStop bStop - max aStart bStart)

/-- Modelled from the spec: candidate range `r` beats the current best range
`best` for the segment `[segStart, segStop]` when its overlap is strictly
greater, or equal with a strictly earlier range start (the spec's tie-break:
"earliest-starting overlapping range wins"). -/
def betterRange (segStart segStop : ℚ) (r best : DiarRange) : Bool :=
  decide
    (overlapLen segStart segStop best.start best.stop <
        overlapLen segStart segStop r.start r.stop ∨
      (overlapLen segStart segStop r.start r.stop =
          overlapLen segStart segStop best.start best.stop ∧
        r.start < best.start))

/-- Modelled from the spec: a left-to-right scan keeping the best range so far
(first seen wins on a full tie). -/
def pickBest (segStart segStop : ℚ) : Option DiarRange → List DiarRange → Option DiarRange
  | acc, [] => acc
  | none, r :: rs => pickBest segStart segStop (some r) rs
  | some b, r :: rs =>
      pickBest segStart segStop (some (if betterRange segStart segStop r b then r else b)) rs

/-- Modelled from the spec: the merge stage's speaker assignment — the segment
gets the speaker of the maximal-overlap range (ties broken towards the earliest
start); a segment overlapping no range gets the synthetic speaker `"unknown"`. -/
def assignSpeaker (segStart segStop : ℚ) (ranges : List DiarRange) : String :=
  match pickBest segStart segStop none ranges with
  | some b =>
      if 0 < overlapLen segStart segStop b.start b.stop then b.speaker else "unknown"
  | none => "unknown"

/-- Modelled from the spec: the merge stage — every transcribed segment keeps
its bounds and text and is assigned a speaker by interval-overlap join. -/
def mergeStage (tsegs : List SegIn) (ranges : List DiarRange) : List BSegment :=
  tsegs.map (fun t =>
    { start := t.start, stop := t.stop, text := t.text,
      speaker_id := assignSpeaker t.start t.stop ranges })

/-! ## Base64 and `stopCapture` (`audio-capture-api` client, `src/unnamed/part_005`) -/

/-- The standard base64 alphabet, sextet value = index. -/
def base64Alphabet : List Char :=
  "ABCDEFGHIJKLMNOPQRSTUVWXYZabcdefghijklmnopqrstuvwxyz0123456789+/".toList

/-- The base64 character of a sextet value. -/
def b64Char (n : Nat) : Char := base64Alphabet.getD n 'A'

/-- The sextet value of a base64 character, `none` for a character outside the
alphabet. -/
def b64Val? (c : Char) : Option Nat :=
  (base64Alphabet.enum.find? (fun p => p.2 = c)).map Prod.fst

/-- Standard (canonical, padded) base64 encoding of a byte sequence — the
encoding named by the claim, of which the browser's `atob` is the inverse. -/
def base64Encode : List Nat → List Char
  | [] => []
  | [b1] => [b64Char (b1 / 4), b64Char (b1 % 4 * 16), '=', '=']
  | [b1, b2] =>
      [b64Char (b1 / 4), b64Char (b1 % 4 * 16 + b2 / 16), b64Char (b2 % 16 * 4), '=']
  | b1 :: b2 :: b3 :: rest =>
      b64Char (b1 / 4) :: b64Char (b1 % 4 * 16 + b2 / 16) ::
        b64Char (b2 % 16 * 4 + b3 / 64) :: b64Char (b3 % 64) :: base64Encode rest

/-- Base64 decoding of a char sequence into byte values, as the browser's
`atob` builtin (used by `stopCapture`) performs it on canonical input: groups
of four sextet characters yield three bytes, with `=`-padding closing the final
group; `none` models a thrown `InvalidCharacterError`. -/
def base64Decode : List Char → Option (List Nat)
  | [] => some []
  | c1 :: c2 :: c3 :: c4 :: rest =>
      if c3 = '=' ∧ c4 = '=' ∧ rest = [] then
        match b64Val? c1, b64Val? c2 with
        | some v1, some v2 => some [v1 * 4 + v2 / 16]
        | _, _ => none
      else if c4 = '=' ∧ rest = [] then
        match b64Val? c1, b64Val? c2, b64Val? c3 with
        | some v1, some v2, some v3 =>
            some [v1 * 4 + v2 / 16, v2 % 16 * 16 + v3 / 4]
        | _, _, _ => none
      else
        match b64Val? c1, b64Val? c2, b64Val? c3, b64Val? c4, base64Decode rest with
        | some v1, some v2, some v3, some v4, some tail =>
            some ((v1 * 4 + v2 / 16) :: (v2 % 16 * 16 + v3 / 4) :: (v3 % 4 * 64 + v4) :: tail)
        | _, _, _, _, _ => none
  | _ => none

/-- The backend's `CaptureStopResponse` (`src/unnamed/part_005`); the
`audio_base64` string is kept as its character list. -/
structure CaptureStopResponse where
  status : String
  session_id : String
  audio_base64 : List Char
  format : String
  size : Nat
deriving DecidableEq, Repr

/-- A browser `Blob`: a MIME type and the contained bytes. -/
structure BlobModel where
  type : String
  content : List Nat
deriving DecidableEq, Repr

/-- Embedding of the success path of `stopCapture`
(`src/unnamed/part_005:147-169`): the response's `audio_base64` field is
decoded with `atob`, the `charCodeAt(i)` loop copies the resulting binary
string into a byte array unchanged, and the bytes are wrapped in a `Blob` of
MIME type `audio/wav`.  `none` models `atob` throwing on malformed input. -/
def stopCapture (resp : CaptureStopResponse) : Option BlobModel :=
  (base64Decode resp.audio_base64).map (fun bytes => { type := "audio/wav", content := bytes })

/-! ## Concrete fixtures used by witnesses -/

/-- A concrete in-progress poll status at the given progress percentage. -/
def demoProcessingAt (p : ℚ) : ProcessingStatus :=
  { status := TaskStatusKind.processing, progress := p, message := "処理中", result := none }

/-- A concrete minutes entry with the given id, used by witnesses. -/
def demoMinutes (id : String) : MeetingMinutes :=
  { id := id, title := "定例会議", date := 0, duration := 60, participants := [],
    transcript := { speakers := [], segments := [], rawText := some "" },
    summary := "", keyPoints := [], actionItems := [], decisions := [],
    audioId := none, createdAt := 0, updatedAt := 0 }

/-- A concrete store whose current minutes is the first of two entries. -/
def demoStore : StoreState :=
  { settings :=
      { apiKeys := { openai := none, gemini := none, anthropic := none,
                     ollama := none, koboldcpp := none },
        selectedProvider := "gemini", selectedModel := "gemini-2.5-flash",
        localLLM := { ollamaUrl := "http://localhost:11434", ollamaModel := "llama3.2",
                      koboldcppUrl := "http://localhost:5001" },
        backend := { enabled := false, url := "http://localhost:8000",
                     whisperModel := "large-v3", useLocalDiarization := true, hfToken := none },
        language := "ja", autoSave := true, speakerDiarization := true, theme := "dark" }
    recording := { isRecording := false, isPaused := false, duration := 0,
                   source := "microphone", audioLevel := 0 }
    minutes := [demoMinutes "m1", demoMinutes "m2"]
    currentMinutes := some (demoMinutes "m1")
    activeTab := "record"
    isProcessing := false }

/-- A concrete recorder state whose `MediaRecorder` is already `inactive` while
some resources are still held. -/
def demoIdleRecorder : RecorderState :=
  { mediaRecorder := some MRState.inactive, chunks := [[1, 2, 3]], stream := some 7,
    audioContext := some ACState.running, animationFrame := some 42, timer := some 5,
    isRecording := true, isPaused := false, audioBlob := none }

/-! ## Claim C1 -/

/-- Claim C1 (counterexample): the claim states that when the diarization LLM
call fails (`llmOutcome = none`), `performSpeakerDiarization` terminates in an
Error and exposes no speaker-attributed transcript.  At this concrete failing
input the promise instead fulfills (`isOk`) with a fallback transcript whose
segment carries the synthetic speaker id `speaker_1` — a speaker-attributed
transcript is exposed and no error is raised. -/
theorem C1_counterexample :
    (performSpeakerDiarization "こんにちは" [⟨0, 2, "こんにちは"⟩] none).isOk = true ∧
    performSpeakerDiarization "こんにちは" [⟨0, 2, "こんにちは"⟩] none =
      Except.ok
        { speakers := [{ id := "speaker_1", name := "話者1", color := "#8B5CF6" }]
          segments := [{ speakerId := "speaker_1", text := "こんにちは", startTime := 0,
                         endTime := 2, confidence := some (9/10) }]
          rawText := some "こんにちは" } := by
  constructor <;> rfl

/-- Claim C1 (amended): when the diarization step fails, the promise returned
by `performSpeakerDiarization` fulfills (never rejects) with a fallback
transcript: a single synthetic speaker `speaker_1` named `話者1` with the first
palette colour, every provided segment re-attributed to that speaker with its
original text and time bounds (or, when the segment list is empty, one segment
covering the whole raw text at time 0), and the raw text preserved. -/
theorem C1_amended_fallback (text : String) (segs : List SegIn) :
    (performSpeakerDiarization text segs none).toOption.map (fun t =>
        (t.speakers, t.rawText,
         t.segments.map (fun s => (s.speakerId, s.text, s.startTime, s.endTime)))) =
      some ([{ id := "speaker_1", name := "話者1", color := "#8B5CF6" }], some text,
        if segs.isEmpty then [("speaker_1", text, (0 : ℚ), (0 : ℚ))]
        else segs.map (fun g => ("speaker_1", g.text, g.start, g.stop))) := by
  cases segs <;> simp [performSpeakerDiarization, Except.toOption, SPEAKER_COLORS]

/-! ## Claim C3 -/

/-- Claim C3: in the success path of `performSpeakerDiarization`, the i-th
diarization speaker (0-based, first-seen order) is assigned colour
`SPEAKER_COLORS[i % 8]` from the fixed 8-colour palette.  Determinism across
runs is inherent: the embedded assignment is a pure function of the parsed
speaker list. -/
theorem C3_speaker_colors (text : String) (segs : List SegIn)
    (parsed : ParsedDiarization) (i : Nat) (h : i < parsed.speakers.length) :
    ((performSpeakerDiarization text segs (some parsed)).toOption.bind
        (fun t => t.speakers[i]?)).map Speaker.color = SPEAKER_COLORS[i % 8]? := by
  have hlen : SPEAKER_COLORS.length = 8 := rfl
  have h8 : i % 8 < SPEAKER_COLORS.length := by
    rw [hlen]; exact Nat.mod_lt _ (by omega)
  simp only [performSpeakerDiarization, Except.toOption, Option.some_bind,
    List.getElem?_map, List.getElem?_enum, List.getElem?_eq_getElem h,
    Option.map_some, List.getD_eq_getElem?_getD, hlen,
    List.getElem?_eq_getElem h8, Option.getD_some]
  simp [List.getElem?_eq_getElem h8]

/-- Claim C3 (witness): the colour formula evaluated at a concrete 9-speaker
diarization: speaker index 8 wraps around to the first palette colour. -/
theorem C3_speaker_colors_witness :
    ((performSpeakerDiarization "t" []
        (some { speakers := (List.range 9).map (fun n => { id := toString n, estimatedName := none }),
                segments := [] })).toOption.bind
        (fun t => t.speakers[8]?)).map Speaker.color = SPEAKER_COLORS[8 % 8]? :=
  C3_speaker_colors "t" [] _ 8 (by simp)

/-! ## Claim C9 -/

/-- Claim C9 (code bug evidence): the transcript object built on the
backend-processing path of `RecordingPanel.tsx` lacks `rawText`, and with it
`generateMeetingSummary` rejects when the LLM call fails — the `catch` branch
itself throws a `TypeError` while evaluating `transcript.rawText.slice(0, 300)`
— instead of resolving with the fallback summary the claim (and the
catch-everything structure of the code) promises.  With `rawText` present the
same failure does resolve with the fallback, shown here at a concrete raw
text. -/
theorem C9_summary_fallback_typeerror :
    (backendPathTranscript
        { text := "こんにちは", segments := [⟨0, 2, "こんにちは", "SPEAKER_00"⟩],
          speakers := [⟨"SPEAKER_00", "SPEAKER_00", "#8B5CF6"⟩], language := "ja" }).rawText
      = none ∧
    generateMeetingSummary
        (backendPathTranscript
          { text := "こんにちは", segments := [⟨0, 2, "こんにちは", "SPEAKER_00"⟩],
            speakers := [⟨"SPEAKER_00", "SPEAKER_00", "#8B5CF6"⟩], language := "ja" }) none
      = Except.error "TypeError: Cannot read properties of undefined (reading 'slice')" ∧
    ∀ raw : String,
      generateMeetingSummary { speakers := [], segments := [], rawText := some raw } none
        = Except.ok { title := "会議議事録", summary := raw.take 300 ++ "...",
                      keyPoints := [], actionItems := [], decisions := [] } := by
  exact ⟨rfl, rfl, fun raw => rfl⟩

/-! ## Claim C4 -/

/-- Claim C4 (counterexample): the claim states that in the 'both' recording
mode each source is summed with per-source unity gain.  At a concrete sample
pair (system silent, microphone at full scale 1) the recorded mix is `0.8`,
not the `1` a unity-gain sum would produce: the microphone branch passes
through a gain node set to `0.8`. -/
theorem C4_counterexample :
    destinationSample 0 1 = 8/10 ∧
    destinationSampleUnitySpec 0 1 = 1 ∧
    destinationSample 0 1 ≠ destinationSampleUnitySpec 0 1 := by
  refine ⟨by norm_num [destinationSample, applyGain, systemGain, micGain],
          by norm_num [destinationSampleUnitySpec], ?_⟩
  norm_num [destinationSample, destinationSampleUnitySpec, applyGain, systemGain, micGain]

/-- Claim C4 (amended): in the 'both' recording mode the two live sources are
summed sample-wise with fixed per-source gains — unity (`1.0`) for the system
audio source and `0.8` for the microphone source — before being written to the
recorded stream. -/
theorem C4_amended_mix (sysSample micSample : ℚ) :
    destinationSample sysSample micSample = 1 * sysSample + (8/10) * micSample := by
  simp [destinationSample, applyGain, systemGain, micGain]

/-! ## Claim C8 -/

/-- Claim C8: `deleteMinutes id` removes exactly the minutes entries whose id
equals `id` (the survivors form a sublist of the original list, so their
relative order is kept), sets `currentMinutes` to `null` exactly when the
current minutes carried the deleted id, leaves it unchanged otherwise, and
modifies no other store field. -/
theorem C8_deleteMinutes (s : StoreState) (id : String) :
    (deleteMinutes id s).minutes.Sublist s.minutes ∧
    (∀ m ∈ s.minutes, (m ∈ (deleteMinutes id s).minutes ↔ m.id ≠ id)) ∧
    (∀ m ∈ (deleteMinutes id s).minutes, m ∈ s.minutes) ∧
    (s.currentMinutes.map MeetingMinutes.id = some id →
      (deleteMinutes id s).currentMinutes = none) ∧
    (s.currentMinutes.map MeetingMinutes.id ≠ some id →
      (deleteMinutes id s).currentMinutes = s.currentMinutes) ∧
    (deleteMinutes id s).settings = s.settings ∧
    (deleteMinutes id s).recording = s.recording ∧
    (deleteMinutes id s).activeTab = s.activeTab ∧
    (deleteMinutes id s).isProcessing = s.isProcessing := by
  unfold deleteMinutes
  refine ⟨List.filter_sublist _, ?_, ?_, ?_, ?_, rfl, rfl, rfl, rfl⟩
  · intro m hm
    simp [List.mem_filter, hm]
  · intro m hm
    exact (List.mem_filter.mp hm).1
  · intro hcur
    simp [hcur]
  · intro hcur
    simp [hcur]

/-- Claim C8 (witness): deleting the current minutes entry from a concrete
two-entry store removes exactly that entry and clears `currentMinutes`. -/
theorem C8_deleteMinutes_witness :
    (demoStore.currentMinutes.map MeetingMinutes.id = some "m1" →
      (deleteMinutes "m1" demoStore).currentMinutes = none) ∧
    (demoMinutes "m2" ∈ demoStore.minutes →
      (demoMinutes "m2" ∈ (deleteMinutes "m1" demoStore).minutes ↔
        (demoMinutes "m2").id ≠ "m1")) ∧
    (deleteMinutes "m1" demoStore).currentMinutes = none := by
  have h := C8_deleteMinutes demoStore "m1"
  exact ⟨h.2.2.2.1, h.2.1 (demoMinutes "m2"), h.2.2.2.1 (by decide)⟩

/-! ## Claim C10 -/

/-- Claim C10: calling `stopRecording` when no recording is active (the
`MediaRecorder` was never created, or is already `inactive`) resolves the
promise with `null` — the executor calls `resolve(null)` synchronously and has
no rejection path — and afterwards `isRecording` and `isPaused` are both false
and the capture resources are released: the timer and animation frame are
cancelled, the stream tracks are stopped and the stream ref cleared, and the
audio context is closed (the ref may keep pointing at an already-closed
context). -/
theorem C10_stopRecording_inactive (s : RecorderState)
    (h : s.mediaRecorder = none ∨ s.mediaRecorder = some MRState.inactive) :
    (stopRecording s).2 = none ∧
    (stopRecording s).1.isRecording = false ∧
    (stopRecording s).1.isPaused = false ∧
    (stopRecording s).1.timer = none ∧
    (stopRecording s).1.animationFrame = none ∧
    (stopRecording s).1.stream = none ∧
    ((stopRecording s).1.audioContext = none ∨
      (stopRecording s).1.audioContext = some ACState.closed) := by
  have hac : ∀ s' : RecorderState,
      (cleanup s').audioContext = none ∨ (cleanup s').audioContext = some ACState.closed := by
    intro s'
    simp only [cleanup]
    rcases s'.audioContext with _ | st
    · exact Or.inl rfl
    · by_cases hc : st = ACState.closed <;> simp [hc]
  rcases h with h | h <;>
    exact ⟨by simp [stopRecording, h], by simp [stopRecording, h, cleanup],
           by simp [stopRecording, h, cleanup], by simp [stopRecording, h, cleanup],
           by simp [stopRecording, h, cleanup], by simp [stopRecording, h, cleanup],
           by simpa [stopRecording, h] using hac _⟩

/-- Claim C10 (witness): stopping at a concrete idle state (recorder already
`inactive`, a live stream, a running audio context and a pending timer)
resolves `null` and releases every resource. -/
theorem C10_stopRecording_inactive_witness :
    (stopRecording demoIdleRecorder).2 = none ∧
    (stopRecording demoIdleRecorder).1.isRecording = false ∧
    (stopRecording demoIdleRecorder).1.isPaused = false ∧
    (stopRecording demoIdleRecorder).1.timer = none ∧
    (stopRecording demoIdleRecorder).1.animationFrame = none ∧
    (stopRecording demoIdleRecorder).1.stream = none ∧
    ((stopRecording demoIdleRecorder).1.audioContext = none ∨
      (stopRecording demoIdleRecorder).1.audioContext = some ACState.closed) :=
  C10_stopRecording_inactive demoIdleRecorder (Or.inr rfl)

/-! ## Claim C5 -/

/-- `waitForProcessing` is the first terminal poll outcome of the status
sequence (helper bridging the recursive loop to `List.findSome?`). -/
theorem waitForProcessing_eq_findSome (sts : List ProcessingStatus) :
    waitForProcessing sts = sts.findSome? pollStep := by
  induction sts with
  | nil => rfl
  | cons st rest ih =>
      rw [List.findSome?_cons]
      rcases hp : pollStep st with _ | out <;> simp [waitForProcessing, hp, ih]

/-- Inversion of a resolving poll step: only a `completed` status with an
attached result resolves, and with exactly that result. -/
theorem pollStep_eq_ok {st : ProcessingStatus} {r : BProcessingResult}
    (h : pollStep st = some (Except.ok r)) :
    st.status = TaskStatusKind.completed ∧ st.result = some r := by
  rcases hs : st.status <;> rcases hr : st.result with _ | v <;>
    simp [pollStep, hs, hr] at h <;> simp_all

/-- Inversion of a rejecting poll step: only an `error` status rejects, and
with its message verbatim. -/
theorem pollStep_eq_error {st : ProcessingStatus} {m : String}
    (h : pollStep st = some (Except.error m)) :
    st.status = TaskStatusKind.error ∧ st.message = m := by
  rcases hs : st.status <;> rcases hr : st.result with _ | v <;>
    simp [pollStep, hs, hr] at h <;> simp_all

/-- Claim C5: `waitForProcessing` settles only at a terminal task status.  Over
any sequence of polled statuses it (1) resolves only at a status that is
`completed` with a result attached, yielding that result; (2) rejects only at a
status that is `error`, with the status message preserved verbatim; (3) never
settles when every polled status is non-terminal (another poll is scheduled
instead); and (4) step-wise, the head status resolves exactly when it is
`completed` with a result, rejects exactly when it is `error`, and otherwise
the loop continues with the remaining polls. -/
theorem C5_waitForProcessing_terminal (sts : List ProcessingStatus) :
    (∀ r, waitForProcessing sts = some (Except.ok r) →
        ∃ st ∈ sts, st.status = TaskStatusKind.completed ∧ st.result = some r) ∧
    (∀ m, waitForProcessing sts = some (Except.error m) →
        ∃ st ∈ sts, st.status = TaskStatusKind.error ∧ st.message = m) ∧
    ((∀ st ∈ sts, ¬(st.status = TaskStatusKind.completed ∧ st.result.isSome = true) ∧
        st.status ≠ TaskStatusKind.error) → waitForProcessing sts = none) ∧
    (∀ st rest, waitForProcessing (st :: rest) =
      if st.status = TaskStatusKind.completed ∧ st.result.isSome = true then
        st.result.map Except.ok
      else if st.status = TaskStatusKind.error then some (Except.error st.message)
      else waitForProcessing rest) := by
  refine ⟨?_, ?_, ?_, ?_⟩
  · intro r h
    rw [waitForProcessing_eq_findSome] at h
    obtain ⟨st, hmem, hst⟩ := List.exists_of_findSome?_eq_some h
    exact ⟨st, hmem, pollStep_eq_ok hst⟩
  · intro m h
    rw [waitForProcessing_eq_findSome] at h
    obtain ⟨st, hmem, hst⟩ := List.exists_of_findSome?_eq_some h
    exact ⟨st, hmem, pollStep_eq_error hst⟩
  · intro h
    rw [waitForProcessing_eq_findSome, List.findSome?_eq_none_iff]
    intro st hmem
    obtain ⟨hnc, hne⟩ := h st hmem
    rcases hs : st.status <;> rcases hr : st.result with _ | v <;>
      simp [pollStep, hs, hr] <;> simp_all
  · intro st rest
    rcases hs : st.status <;> rcases hr : st.result with _ | v <;>
      simp [waitForProcessing, pollStep, hs, hr]

/-- Claim C5 (witness): a concrete sequence of two non-terminal polls settles
nothing: the promise neither resolves nor rejects, it schedules further
polls. -/
theorem C5_waitForProcessing_terminal_witness :
    ((∀ st ∈ [demoProcessingAt 10, demoProcessingAt 50],
        ¬(st.status = TaskStatusKind.completed ∧ st.result.isSome = true) ∧
        st.status ≠ TaskStatusKind.error) →
      waitForProcessing [demoProcessingAt 10, demoProcessingAt 50] = none) ∧
    waitForProcessing [demoProcessingAt 10, demoProcessingAt 50] = none := by
  have h := C5_waitForProcessing_terminal [demoProcessingAt 10, demoProcessingAt 50]
  exact ⟨h.2.2.1, h.2.2.1 (by decide)⟩

/-! ## Claim C6 -/

/-- Claim C6: querying the processing status of a task id unknown to the
backend registry makes `getProcessingStatus` reject with the server's error
detail (a distinguishable "not found"), and it never resolves with any status
object — in particular not with a default `{status: processing, progress: 0}`
task. -/
theorem C6_getProcessingStatus_unknown (registry : List (String × ProcessingStatus))
    (taskId : String) (h : registry.lookup taskId = none) :
    getProcessingStatus (backendProcessStatus registry taskId) =
      Except.error "Task not found" ∧
    ∀ st : ProcessingStatus,
      getProcessingStatus (backendProcessStatus registry taskId) ≠ Except.ok st := by
  unfold backendProcessStatus
  rw [h]
  exact ⟨rfl, fun st hcontra => by simp [getProcessingStatus, jsOr] at hcontra⟩

/-- Claim C6 (witness): the empty registry knows no task id, and the query for
a concrete unknown id rejects with the "not found" detail. -/
theorem C6_getProcessingStatus_unknown_witness :
    getProcessingStatus (backendProcessStatus [] "no-such-task") =
      Except.error "Task not found" :=
  (C6_getProcessingStatus_unknown [] "no-such-task" rfl).1

/-! ## Claim C7 -/

/-- Decoding inverts the alphabet lookup on every sextet value. -/
theorem b64Val?_b64Char : ∀ n, n < 64 → b64Val? (b64Char n) = some n := by decide

/-- The padding character never occurs in the base64 alphabet, so `b64Char`
never produces it. -/
theorem b64Char_ne_pad (n : Nat) : b64Char n ≠ '=' := by
  rcases lt_or_ge n base64Alphabet.length with h | h
  · intro hc
    have hmem : b64Char n ∈ base64Alphabet := by
      unfold b64Char
      rw [List.getD_eq_getElem?_getD, List.getElem?_eq_getElem h]
      exact List.getElem_mem ..
    rw [hc] at hmem
    exact absurd hmem (by decide)
  · unfold b64Char
    rw [List.getD_eq_default _ _ h]
    decide

/-- `atob`-style decoding is a left inverse of canonical base64 encoding on
byte sequences. -/
theorem base64Decode_encode : ∀ (b : List Nat), (∀ x ∈ b, x < 256) →
    base64Decode (base64Encode b) = some b := by
  intro b
  induction b using base64Encode.induct with
  | case1 => intro _; rfl
  | case2 b1 =>
      intro h
      have hb1 : b1 < 256 := h b1 (by simp)
      have h1 : b1 / 4 < 64 := by omega
      have h2 : b1 % 4 * 16 < 64 := by omega
      simp [base64Encode, base64Decode, b64Val?_b64Char _ h1, b64Val?_b64Char _ h2]
      omega
  | case3 b1 b2 =>
      intro h
      have hb1 : b1 < 256 := h b1 (by simp)
      have hb2 : b2 < 256 := h b2 (by simp)
      have h1 : b1 / 4 < 64 := by omega
      have h2 : b1 % 4 * 16 + b2 / 16 < 64 := by omega
      have h3 : b2 % 16 * 4 < 64 := by omega
      simp [base64Encode, base64Decode, b64Char_ne_pad,
        b64Val?_b64Char _ h1, b64Val?_b64Char _ h2, b64Val?_b64Char _ h3]
      omega
  | case4 b1 b2 b3 rest ih =>
      intro h
      have hb1 : b1 < 256 := h b1 (by simp)
      have hb2 : b2 < 256 := h b2 (by simp)
      have hb3 : b3 < 256 := h b3 (by simp)
      have hrest : ∀ x ∈ rest, x < 256 := fun x hx => h x (by simp [hx])
      have h1 : b1 / 4 < 64 := by omega
      have h2 : b1 % 4 * 16 + b2 / 16 < 64 := by omega
      have h3 : b2 % 16 * 4 + b3 / 64 < 64 := by omega
      have h4 : b3 % 64 < 64 := by omega
      simp [base64Encode, base64Decode, b64Char_ne_pad, ih hrest,
        b64Val?_b64Char _ h1, b64Val?_b64Char _ h2, b64Val?_b64Char _ h3, b64Val?_b64Char _ h4]
      omega

/-- Claim C7: `stopCapture` delivers the finished-audio container losslessly —
for every stop response whose `audio_base64` field is the base64 encoding of a
byte sequence `b`, the returned `Blob` has MIME type `audio/wav` and contains
exactly the bytes `b`: no byte added, dropped or reordered. -/
theorem C7_stopCapture_lossless (b : List Nat) (resp : CaptureStopResponse)
    (hb : ∀ x ∈ b, x < 256) (henc : resp.audio_base64 = base64Encode b) :
    stopCapture resp = some { type := "audio/wav", content := b } := by
  simp [stopCapture, henc, base64Decode_encode b hb]

/-- Claim C7 (witness): a concrete 4-byte payload (the `RIFF` magic of a WAV
container) survives the encode/stop round trip byte-for-byte. -/
theorem C7_stopCapture_lossless_witness :
    stopCapture { status := "stopped", session_id := "s1",
                  audio_base64 := base64Encode [82, 73, 70, 70],
                  format := "wav", size := 4 } =
      some { type := "audio/wav", content := [82, 73, 70, 70] } :=
  C7_stopCapture_lossless [82, 73, 70, 70] _ (by decide) rfl

/-! ## Claim C2 -/

/-- Scanning an empty range list returns the accumulator. -/
theorem pickBest_nil (a c : ℚ) (acc : Option DiarRange) : pickBest a c acc [] = acc := by
  cases acc <;> rfl

/-- Starting the scan seeds the accumulator with the first range. -/
theorem pickBest_cons_none (a c : ℚ) (r : DiarRange) (rs : List DiarRange) :
    pickBest a c none (r :: rs) = pickBest a c (some r) rs := rfl

/-- One scan step keeps the better of the accumulator and the next range. -/
theorem pickBest_cons_some (a c : ℚ) (b0 r : DiarRange) (rs : List DiarRange) :
    pickBest a c (some b0) (r :: rs) =
      pickBest a c (some (if betterRange a c r b0 then r else b0)) rs := rfl

/-- No range strictly beats itself. -/
theorem betterRange_self (a c : ℚ) (b : DiarRange) : betterRange a c b b = false := by
  simp [betterRange]

/-- "Does not beat" is transitive: `betterRange` is the strict part of a total
preorder on (overlap desc, start asc). -/
theorem notBetter_trans {a c : ℚ} {x y z : DiarRange}
    (h1 : betterRange a c x y = false) (h2 : betterRange a c y z = false) :
    betterRange a c x z = false := by
  simp only [betterRange, decide_eq_false_iff_not, not_or, not_and, not_lt] at h1 h2 ⊢
  obtain ⟨h1o, h1s⟩ := h1
  obtain ⟨h2o, h2s⟩ := h2
  refine ⟨le_trans h1o h2o, fun heq => ?_⟩
  have hxy : overlapLen a c x.start x.stop = overlapLen a c y.start y.stop := by linarith
  have hyz : overlapLen a c y.start y.stop = overlapLen a c z.start z.stop := by linarith
  exact le_trans (h2s hyz) (h1s hxy)

/-- If `x` beats `y` but not `z`, then `y` does not beat `z`. -/
theorem notBetter_of_better_notBetter {a c : ℚ} {x y z : DiarRange}
    (h1 : betterRange a c x y = true) (h2 : betterRange a c x z = false) :
    betterRange a c y z = false := by
  simp only [betterRange, decide_eq_true_eq] at h1
  simp only [betterRange, decide_eq_false_iff_not, not_or, not_and, not_lt] at h2 ⊢
  obtain ⟨h2o, h2s⟩ := h2
  rcases h1 with h1 | ⟨h1e, h1s⟩
  · exact ⟨by linarith, fun heq => by exfalso; linarith⟩
  · refine ⟨by linarith, fun heq => ?_⟩
    have hxz : overlapLen a c x.start x.stop = overlapLen a c z.start z.stop := by linarith
    linarith [h2s hxz]

/-- Scan invariant: the scan of `rs` seeded with `b0` returns an element of
`{b0} ∪ rs` that no scanned range (nor the seed) beats. -/
theorem pickBest_go (a c : ℚ) (rs : List DiarRange) :
    ∀ b0 : DiarRange,
      ∃ b, pickBest a c (some b0) rs = some b ∧
        (b = b0 ∨ b ∈ rs) ∧
        betterRange a c b0 b = false ∧
        ∀ r ∈ rs, betterRange a c r b = false := by
  induction rs with
  | nil =>
      intro b0
      exact ⟨b0, rfl, Or.inl rfl, betterRange_self a c b0, by simp⟩
  | cons r rs ih =>
      intro b0
      by_cases hbr : betterRange a c r b0 = true
      · obtain ⟨b, hpick, hmem, hnb, hall⟩ := ih r
        refine ⟨b, ?_, ?_, ?_, ?_⟩
        · rw [pickBest_cons_some, if_pos hbr]
          exact hpick
        · rcases hmem with rfl | h
          · exact Or.inr (List.mem_cons_self ..)
          · exact Or.inr (List.mem_cons_of_mem _ h)
        · exact notBetter_of_better_notBetter hbr hnb
        · intro x hx
          rcases List.mem_cons.mp hx with rfl | h
          · exact hnb
          · exact hall x h
      · rw [Bool.not_eq_true] at hbr
        obtain ⟨b, hpick, hmem, hnb, hall⟩ := ih b0
        refine ⟨b, ?_, ?_, hnb, ?_⟩
        · rw [pickBest_cons_some, if_neg (by simp [hbr])]
          exact hpick
        · rcases hmem with rfl | h
          · exact Or.inl rfl
          · exact Or.inr (List.mem_cons_of_mem _ h)
        · intro x hx
          rcases List.mem_cons.mp hx with rfl | h
          · exact notBetter_trans hbr hnb
          · exact hall x h

/-- The selected range is one of the scanned ranges and none of them beats it:
it has maximal overlap, with ties resolved towards the earliest start. -/
theorem pickBest_spec {a c : ℚ} {ranges : List DiarRange} {b : DiarRange}
    (h : pickBest a c none ranges = some b) :
    b ∈ ranges ∧ ∀ r ∈ ranges, betterRange a c r b = false := by
  cases ranges with
  | nil => cases h
  | cons r rs =>
      obtain ⟨b', hpick, hmem, hnb, hall⟩ := pickBest_go a c rs r
      rw [pickBest_cons_none, hpick] at h
      obtain rfl := Option.some.inj h
      constructor
      · rcases hmem with rfl | hm
        · exact List.mem_cons_self ..
        · exact List.mem_cons_of_mem _ hm
      · intro x hx
        rcases List.mem_cons.mp hx with rfl | hm
        · exact hnb
        · exact hall x hm

/-- The scan of a nonempty range list selects some range. -/
theorem pickBest_isSome {a c : ℚ} {ranges : List DiarRange} (h : ranges ≠ []) :
    ∃ b, pickBest a c none ranges = some b := by
  cases ranges with
  | nil => exact absurd rfl h
  | cons r rs =>
      obtain ⟨b, hpick, _, _, _⟩ := pickBest_go a c rs r
      exact ⟨b, by rw [pickBest_cons_none, hpick]⟩

/-- Unfolding of "r does not beat b": r's overlap is at most b's, and on an
exact overlap tie b starts no later than r. -/
theorem notBetter_le {a c : ℚ} {r b : DiarRange} (h : betterRange a c r b = false) :
    overlapLen a c r.start r.stop ≤ overlapLen a c b.start b.stop ∧
      (overlapLen a c r.start r.stop = overlapLen a c b.start b.stop → b.start ≤ r.start) := by
  simpa [betterRange, not_or, not_lt] using h

/-- Claim C2: in the merge stage, a segment overlapping no diarization range
is assigned the synthetic speaker "unknown"; otherwise it is assigned the
speaker of a range with the greatest temporal overlap, and on an exact overlap
tie the earliest-starting such range wins.  The spec's example — segment
`[2,5]` against `speakerA=[0,3]` (overlap 1) and `speakerB=[3,6]` (overlap 2) —
resolves to `speakerB`, and an exact 50%/50% tie — segment `[0,4]` against
`speakerB=[2,6]` and `speakerA=[0,2]`, both overlapping 2 — resolves to the
earliest-starting range `speakerA` even though it is listed second. -/
theorem C2_merge (segStart segStop : ℚ) (ranges : List DiarRange) :
    ((∀ r ∈ ranges, overlapLen segStart segStop r.start r.stop ≤ 0) →
      assignSpeaker segStart segStop ranges = "unknown") ∧
    (∀ r0 ∈ ranges, 0 < overlapLen segStart segStop r0.start r0.stop →
      ∃ b ∈ ranges, assignSpeaker segStart segStop ranges = b.speaker ∧
        0 < overlapLen segStart segStop b.start b.stop ∧
        (∀ r ∈ ranges, overlapLen segStart segStop r.start r.stop ≤
          overlapLen segStart segStop b.start b.stop) ∧
        (∀ r ∈ ranges, overlapLen segStart segStop r.start r.stop =
          overlapLen segStart segStop b.start b.stop → b.start ≤ r.start)) ∧
    assignSpeaker 2 5 [⟨0, 3, "speakerA"⟩, ⟨3, 6, "speakerB"⟩] = "speakerB" ∧
    assignSpeaker 0 4 [⟨2, 6, "speakerB"⟩, ⟨0, 2, "speakerA"⟩] = "speakerA" := by
  refine ⟨?_, ?_, ?_, ?_⟩
  · intro hall
    rcases hp : pickBest segStart segStop none ranges with _ | b
    · simp [assignSpeaker, hp]
    · obtain ⟨hmem, _⟩ := pickBest_spec hp
      have hle := hall b hmem
      simp only [assignSpeaker, hp]
      rw [if_neg (not_lt.mpr hle)]
  · intro r0 hr0 hpos
    have hne : ranges ≠ [] := by rintro rfl; cases hr0
    obtain ⟨b, hp⟩ := pickBest_isSome (a := segStart) (c := segStop) hne
    obtain ⟨hmem, hall⟩ := pickBest_spec hp
    have hmax : ∀ r ∈ ranges, overlapLen segStart segStop r.start r.stop ≤
        overlapLen segStart segStop b.start b.stop :=
      fun r hr => (notBetter_le (hall r hr)).1
    have hbpos : 0 < overlapLen segStart segStop b.start b.stop :=
      lt_of_lt_of_le hpos (hmax r0 hr0)
    refine ⟨b, hmem, ?_, hbpos, hmax, fun r hr => (notBetter_le (hall r hr)).2⟩
    simp only [assignSpeaker, hp]
    rw [if_pos hbpos]
  · norm_num [assignSpeaker, pickBest_cons_none, pickBest_cons_some, pickBest_nil,
      betterRange, overlapLen, max_def, min_def]
  · norm_num [assignSpeaker, pickBest_cons_none, pickBest_cons_some, pickBest_nil,
      betterRange, overlapLen, max_def, min_def]

/-- Claim C2 (witness): a concrete segment overlapping no range is assigned
"unknown". -/
theorem C2_merge_witness :
    assignSpeaker 10 12 [⟨0, 1, "speakerA"⟩] = "unknown" :=
  (C2_merge 10 12 [⟨0, 1, "speakerA"⟩]).1 (by
    intro r hr
    obtain rfl := List.mem_singleton.mp hr
    norm_num [overlapLen, max_def, min_def])

end Gijiroku
